import Mathlib

/-!
Shallow embedding of `src/library/src/scripts/state/ReduxActions.ts`
(the `ReduxActions` class: `createAction`, `generateApiActionCreators`,
`createApiRequestAction`, `createApiResponseAction`, `createApiErrorAction`,
`dispatchApi`) together with proofs of the request-lifecycle properties.

JavaScript values are modelled by `JsValue`; objects are association lists of
string keys where a later binding shadows an earlier one, so the object spread
`{...a, ...b}` is list concatenation `a ++ b`.  The state-container dispatch
function and the HTTP client (axios) are external collaborators: they are a
parameter `Env` of the model.  `dispatch` may throw (`some e`) or succeed
(`none`); a method call on the HTTP client either resolves (`Except.ok`) or
rejects (`Except.error`), which models the awaited promise.  `dispatchApi`
returns the list of observable events (dispatched actions, `logError` calls,
the HTTP request issued) together with its outcome: `Except.ok v` models the
returned promise resolving with `v` and `Except.error e` models it rejecting
with `e`.
-/

namespace ReduxActions

/-- A JavaScript runtime value (the fragment the embedded code manipulates). -/
inductive JsValue where
  | undefined : JsValue
  | null : JsValue
  | bool : Bool → JsValue
  | num : Int → JsValue
  | str : String → JsValue
  | obj : List (String × JsValue) → JsValue

/-- A JavaScript object body: keys with values, later bindings shadowing
earlier ones. -/
abbrev JsObj := List (String × JsValue)

/-- First binding of key `k`, if any (helper for last-wins lookup). -/
def lookupFirst : JsObj → String → JsValue
  | [], _ => .undefined
  | (k', v) :: rest, k => if k' = k then v else lookupFirst rest k

/-- Whether the object has a binding for key `k`. -/
def hasKey (o : JsObj) (k : String) : Bool :=
  o.any (fun p => p.1 = k)

/-- JavaScript property access `v[k]`: the last binding wins; access on a
non-object yields `undefined`. -/
def JsValue.getField : JsValue → String → JsValue
  | .obj fields, k => lookupFirst fields.reverse k
  | _, _ => .undefined

/-- JavaScript truthiness, as used by `axiosError.response ? _ : _`. -/
def truthy : JsValue → Bool
  | .undefined => false
  | .null => false
  | .bool b => b
  | .num n => n ≠ 0
  | .str s => s ≠ ""
  | .obj _ => true

/-- A dispatched action `{type, payload?, meta?}`.  A field of `none` models
the absence of the key on the object. -/
structure Action where
  type : String
  payload : Option JsValue
  meta : Option JsValue

/-- `createAction(type, payload?)` from `ReduxActions.createAction`:
`payload === undefined ? { type } : { type, payload }`.  Omitting the
optional argument is the same JavaScript call as passing `undefined`. -/
def createAction (type : String) (payload : JsValue) : Action :=
  match payload with
  | .undefined => { type := type, payload := none, meta := none }
  | p => { type := type, payload := some p, meta := none }

/-- The one-argument overload `createAction(type)`: in JavaScript the omitted
parameter is `undefined`. -/
def createActionNoPayload (type : String) : Action :=
  createAction type .undefined

/-- An observable side effect of the helper. -/
inductive Event where
  | dispatched : Action → Event
  | logged : JsValue → Event
  | http : String → String → JsValue → Event

/-- `ReduxActions.createApiRequestAction(type, meta)`: `{ type, meta }`. -/
def createApiRequestAction (type : String) (meta : JsValue) : Action :=
  { type := type, payload := none, meta := some meta }

/-- `ReduxActions.createApiResponseAction(type, meta, payload)`:
`{ type, meta, payload }`. -/
def createApiResponseAction (type : String) (meta payload : JsValue) : Action :=
  { type := type, payload := some payload, meta := some meta }

/-- `ReduxActions.createApiErrorAction(type, meta, error)`: calls
`logError(error)` (the emitted event), then returns `{ type, meta, payload: error }`. -/
def createApiErrorAction (type : String) (meta error : JsValue) :
    List Event × Action :=
  ([Event.logged error],
    { type := type, payload := some error, meta := some meta })

/-- The triple returned by `generateApiActionCreators`. -/
structure ActionCreators where
  request : JsValue → Action
  response : JsValue → JsValue → Action
  error : JsValue → JsValue → List Event × Action

/-- `ReduxActions.generateApiActionCreators(requestType, responseType, errorType)`. -/
def generateApiActionCreators (requestType responseType errorType : String) :
    ActionCreators where
  request := fun meta => createApiRequestAction requestType meta
  response := fun response meta => createApiResponseAction responseType meta response
  error := fun error meta => createApiErrorAction errorType meta error

/-- The request methods accepted by `dispatchApi`
(`type RequestType = "get" | "post" | "put" | "delete" | "patch"`). -/
inductive RequestType where
  | get | post | put | delete | patch
deriving DecidableEq

/-- Method name as a string (for the recorded HTTP event). -/
def RequestType.name : RequestType → String
  | .get => "get"
  | .post => "post"
  | .put => "put"
  | .delete => "delete"
  | .patch => "patch"

/-- The second argument handed to the HTTP client:
`requestType === "get" ? this.api.get(endpoint, { params })
                       : this.api[requestType](endpoint, params)`. -/
def requestArg (requestType : RequestType) (params : JsObj) : JsValue :=
  match requestType with
  | .get => .obj [("params", .obj params)]
  | _ => .obj params

/-- The external collaborators of `dispatchApi`: the HTTP client (a method
call either resolves or rejects) and the store dispatch function (which may
throw `some e`). -/
structure Env where
  api : RequestType → String → JsValue → Except JsValue JsValue
  dispatch : Action → Option JsValue

/-- The `catch (axiosError)` clause of `dispatchApi`:
`const error = axiosError.response ? axiosError.response.data : axiosError`. -/
def extractError (axiosError : JsValue) : JsValue :=
  if truthy (axiosError.getField "response") then
    (axiosError.getField "response").getField "data"
  else
    axiosError

/-- Body of the `catch` clause: extract the error, run the error action
creator (which logs), dispatch the error action, and fall through to the
implicit `return undefined`.  If this dispatch itself throws, the exception
propagates out of `dispatchApi`. -/
def handleCatch (env : Env) (actionCreators : ActionCreators) (meta : JsValue)
    (trace : List Event) (axiosError : JsValue) :
    List Event × Except JsValue JsValue :=
  let error := extractError axiosError
  let created := actionCreators.error error meta
  match env.dispatch created.2 with
  | none => (trace ++ created.1 ++ [Event.dispatched created.2], .ok .undefined)
  | some thrown => (trace ++ created.1, .error thrown)

/-- `ReduxActions.dispatchApi(requestType, endpoint, actionCreators, params, meta = {})`.

Steps of the source, in order: merge `meta = {...params, ...meta}`; dispatch
the request action (outside the `try`, so a throw here rejects the promise);
inside the `try`, issue the HTTP call (`{ params }` config for `get`, `params`
body otherwise) and await it; on resolution dispatch the response action and
return the response; any exception raised inside the `try` — a rejected HTTP
promise or a throwing response dispatch — reaches the `catch` clause. -/
def dispatchApi (env : Env) (requestType : RequestType) (endpoint : String)
    (actionCreators : ActionCreators) (params : JsObj) (meta : JsObj) :
    List Event × Except JsValue JsValue :=
  let meta2 : JsValue := .obj (params ++ meta)
  let reqAction := actionCreators.request meta2
  match env.dispatch reqAction with
  | some e => ([], .error e)
  | none =>
    let trace0 := [Event.dispatched reqAction,
      Event.http requestType.name endpoint (requestArg requestType params)]
    match env.api requestType endpoint (requestArg requestType params) with
    | .ok response =>
      let respAction := actionCreators.response response meta2
      match env.dispatch respAction with
      | none => (trace0 ++ [Event.dispatched respAction], .ok response)
      | some thrown => handleCatch env actionCreators meta2 trace0 thrown
    | .error axiosError => handleCatch env actionCreators meta2 trace0 axiosError

/-- The actions dispatched during a run, in order. -/
def dispatchedActions (trace : List Event) : List Action :=
  trace.filterMap (fun e =>
    match e with
    | .dispatched a => some a
    | _ => none)

/-! Concrete collaborators used to exercise the model on closed inputs. -/

/-- A store whose dispatch never throws. -/
def quietDispatch : Action → Option JsValue := fun _ => none

/-- An HTTP client that resolves every call with `v`. -/
def okApi (v : JsValue) : RequestType → String → JsValue → Except JsValue JsValue :=
  fun _ _ _ => Except.ok v

/-- An HTTP client that rejects every call with `e`. -/
def rejectingApi (e : JsValue) : RequestType → String → JsValue → Except JsValue JsValue :=
  fun _ _ _ => Except.error e

/-- A sample `{data, status}`-shaped HTTP response. -/
def sampleResponse : JsValue :=
  .obj [("data", .str "things"), ("status", .num 200)]

/-- A sample axios rejection carrying a server error body. -/
def sampleServerError : JsValue :=
  .obj [("response", .obj [("data", .obj [("message", .str "bad")])])]

/-- A sample rejection with no `response` key (pure transport failure). -/
def sampleTransportError : JsValue :=
  .obj [("message", .str "Network Error")]

def envOk : Env := { api := okApi sampleResponse, dispatch := quietDispatch }

def envServerErr : Env := { api := rejectingApi sampleServerError, dispatch := quietDispatch }

def envTransportErr : Env := { api := rejectingApi sampleTransportError, dispatch := quietDispatch }

/-- A store whose dispatch throws `e` exactly on actions of type `t`. -/
def throwOnType (t : String) (e : JsValue) : Action → Option JsValue :=
  fun a => if a.type == t then some e else none

/-- HTTP call succeeds but dispatching the response action throws. -/
def envThrowOnResponse : Env :=
  { api := okApi sampleResponse, dispatch := throwOnType "RS" (.str "boom") }

/-! Helper lemmas about object lookup under concatenation (the spread merge). -/

theorem lookupFirst_append (a b : JsObj) (k : String) :
    lookupFirst (a ++ b) k = if hasKey a k then lookupFirst a k else lookupFirst b k := by
  induction a with
  | nil => simp [lookupFirst, hasKey]
  | cons p rest ih =>
    obtain ⟨k', v⟩ := p
    by_cases hk : k' = k
    · simp [lookupFirst, hasKey, hk]
    · have hck : hasKey ((k', v) :: rest) k = hasKey rest k := by
        simp [hasKey, hk]
      have hlk : lookupFirst ((k', v) :: rest) k = lookupFirst rest k := by
        simp [lookupFirst, hk]
      show (if k' = k then v else lookupFirst (rest ++ b) k) = _
      rw [if_neg hk, ih, hck, hlk]

theorem hasKey_reverse (o : JsObj) (k : String) :
    hasKey o.reverse k = hasKey o k := by
  simp [hasKey, List.any_eq_true]

/-- Lookup on the merged object `{...params, ...meta}`: a key present in
`meta` takes the value from `meta`, otherwise the value from `params`. -/
theorem getField_merge (params meta : JsObj) (k : String) :
    JsValue.getField (.obj (params ++ meta)) k =
      if hasKey meta k then JsValue.getField (.obj meta) k
      else JsValue.getField (.obj params) k := by
  simp only [JsValue.getField, List.reverse_append, lookupFirst_append, hasKey_reverse]

/-! The claims. -/

/-- C1: for every successful call to `dispatchApi` (the promise of the HTTP client
fulfills, and the store dispatch does not throw on the two actions involved),
exactly two actions are dispatched — the request action first, then the
response action — both carrying the identical merged meta object, and
`dispatchApi` returns the HTTP response it received. -/
theorem dispatchApi_success_request_then_response
    (env : Env) (rt : RequestType) (ep rq rs er : String)
    (params meta : JsObj) (response : JsValue)
    (h1 : env.dispatch (createApiRequestAction rq (.obj (params ++ meta))) = none)
    (h2 : env.api rt ep (requestArg rt params) = .ok response)
    (h3 : env.dispatch
      (createApiResponseAction rs (.obj (params ++ meta)) response) = none) :
    dispatchedActions
        (dispatchApi env rt ep (generateApiActionCreators rq rs er) params meta).1 =
      [createApiRequestAction rq (.obj (params ++ meta)),
       createApiResponseAction rs (.obj (params ++ meta)) response] ∧
    (createApiRequestAction rq (.obj (params ++ meta))).meta =
      (createApiResponseAction rs (.obj (params ++ meta)) response).meta ∧
    (dispatchApi env rt ep (generateApiActionCreators rq rs er) params meta).2 =
      .ok response := by
  refine ⟨?_, rfl, ?_⟩ <;>
    simp [dispatchApi, generateApiActionCreators, h1, h2, h3, dispatchedActions]

theorem dispatchApi_success_request_then_response_witness :
    dispatchedActions
        (dispatchApi envOk .get "/things" (generateApiActionCreators "RQ" "RS" "ER")
          [("page", JsValue.num 2)] []).1 =
      [createApiRequestAction "RQ" (.obj ([("page", JsValue.num 2)] ++ [])),
       createApiResponseAction "RS" (.obj ([("page", JsValue.num 2)] ++ []))
         sampleResponse] ∧
    (createApiRequestAction "RQ" (.obj ([("page", JsValue.num 2)] ++ []))).meta =
      (createApiResponseAction "RS" (.obj ([("page", JsValue.num 2)] ++ []))
        sampleResponse).meta ∧
    (dispatchApi envOk .get "/things" (generateApiActionCreators "RQ" "RS" "ER")
        [("page", JsValue.num 2)] []).2 = .ok sampleResponse :=
  dispatchApi_success_request_then_response envOk .get "/things" "RQ" "RS" "ER"
    [("page", JsValue.num 2)] [] sampleResponse rfl rfl rfl

/-- C2: for every failing call to `dispatchApi` (the promise of the HTTP client
rejects, and the store dispatch does not throw on the two actions involved),
exactly two actions are dispatched — the request action first, then the error
action; in particular no response action is dispatched and no second terminal
action follows the first. -/
theorem dispatchApi_failure_request_then_error
    (env : Env) (rt : RequestType) (ep rq rs er : String)
    (params meta : JsObj) (axiosError : JsValue)
    (h1 : env.dispatch (createApiRequestAction rq (.obj (params ++ meta))) = none)
    (h2 : env.api rt ep (requestArg rt params) = .error axiosError)
    (h3 : env.dispatch
      (createApiErrorAction er (.obj (params ++ meta)) (extractError axiosError)).2 =
        none) :
    dispatchedActions
        (dispatchApi env rt ep (generateApiActionCreators rq rs er) params meta).1 =
      [createApiRequestAction rq (.obj (params ++ meta)),
       (createApiErrorAction er (.obj (params ++ meta)) (extractError axiosError)).2] := by
  simp [dispatchApi, generateApiActionCreators, h1, h2, handleCatch,
    createApiErrorAction, dispatchedActions] at h3 ⊢
  simp [h3, dispatchedActions]

theorem dispatchApi_failure_request_then_error_witness :
    dispatchedActions
        (dispatchApi envServerErr .get "/things"
          (generateApiActionCreators "RQ" "RS" "ER") [("page", JsValue.num 2)] []).1 =
      [createApiRequestAction "RQ" (.obj ([("page", JsValue.num 2)] ++ [])),
       (createApiErrorAction "ER" (.obj ([("page", JsValue.num 2)] ++ []))
         (extractError sampleServerError)).2] :=
  dispatchApi_failure_request_then_error envServerErr .get "/things" "RQ" "RS" "ER"
    [("page", JsValue.num 2)] [] sampleServerError rfl rfl rfl

/-- C3: when the store dispatch never throws, the promise returned by
`dispatchApi` never rejects: the outcome is always `ok`, and on any failure of
the HTTP call it resolves with `undefined` — the rejection is caught locally
and not re-thrown. -/
theorem dispatchApi_never_rejects
    (env : Env) (rt : RequestType) (ep : String) (ac : ActionCreators)
    (params meta : JsObj)
    (hd : ∀ a, env.dispatch a = none) :
    (dispatchApi env rt ep ac params meta).2.isOk = true ∧
    (∀ e, env.api rt ep (requestArg rt params) = .error e →
      (dispatchApi env rt ep ac params meta).2 = .ok .undefined) := by
  constructor
  · rcases h : env.api rt ep (requestArg rt params) with e | r <;>
      simp [dispatchApi, hd, h, handleCatch, Except.isOk, Except.toBool]
  · intro e he
    simp [dispatchApi, hd, he, handleCatch]

theorem dispatchApi_never_rejects_witness :
    (dispatchApi envTransportErr .post "/things"
        (generateApiActionCreators "RQ" "RS" "ER") [("page", JsValue.num 2)] []).2.isOk =
      true ∧
    (∀ e, envTransportErr.api .post "/things"
        (requestArg .post [("page", JsValue.num 2)]) = .error e →
      (dispatchApi envTransportErr .post "/things"
          (generateApiActionCreators "RQ" "RS" "ER") [("page", JsValue.num 2)] []).2 =
        .ok .undefined) :=
  dispatchApi_never_rejects envTransportErr .post "/things"
    (generateApiActionCreators "RQ" "RS" "ER") [("page", JsValue.num 2)] []
    (fun _ => rfl)

/-- C4: for every failing call to `dispatchApi` (dispatch never throwing),
the dispatched error action — the last action dispatched — carries as payload
the extracted error: the server error body `axiosError.response.data` when the
caught error has a truthy `response` field, the raw transport error itself
otherwise; and the extracted error is also logged (`logError`). -/
theorem dispatchApi_error_payload_extraction
    (env : Env) (rt : RequestType) (ep rq rs er : String)
    (params meta : JsObj) (axiosError : JsValue)
    (hd : ∀ a, env.dispatch a = none)
    (h2 : env.api rt ep (requestArg rt params) = .error axiosError) :
    (dispatchedActions
        (dispatchApi env rt ep (generateApiActionCreators rq rs er) params meta).1).getLast? =
      some { type := er, payload := some (extractError axiosError),
             meta := some (JsValue.obj (params ++ meta)) } ∧
    Event.logged (extractError axiosError) ∈
      (dispatchApi env rt ep (generateApiActionCreators rq rs er) params meta).1 ∧
    (truthy (axiosError.getField "response") = true →
      extractError axiosError = (axiosError.getField "response").getField "data") ∧
    (truthy (axiosError.getField "response") = false →
      extractError axiosError = axiosError) := by
  refine ⟨?_, ?_, fun ht => ?_, fun hf => ?_⟩
  · simp [dispatchApi, generateApiActionCreators, hd, h2, handleCatch,
      createApiErrorAction, dispatchedActions]
  · simp [dispatchApi, generateApiActionCreators, hd, h2, handleCatch,
      createApiErrorAction]
  · simp [extractError, ht]
  · simp [extractError, hf]

theorem dispatchApi_error_payload_extraction_witness :
    (dispatchedActions
        (dispatchApi envServerErr .post "/things"
          (generateApiActionCreators "RQ" "RS" "ER") [("page", JsValue.num 2)] []).1).getLast? =
      some { type := "ER", payload := some (extractError sampleServerError),
             meta := some (JsValue.obj ([("page", JsValue.num 2)] ++ [])) } ∧
    Event.logged (extractError sampleServerError) ∈
      (dispatchApi envServerErr .post "/things"
        (generateApiActionCreators "RQ" "RS" "ER") [("page", JsValue.num 2)] []).1 ∧
    (truthy (sampleServerError.getField "response") = true →
      extractError sampleServerError =
        (sampleServerError.getField "response").getField "data") ∧
    (truthy (sampleServerError.getField "response") = false →
      extractError sampleServerError = sampleServerError) :=
  dispatchApi_error_payload_extraction envServerErr .post "/things" "RQ" "RS" "ER"
    [("page", JsValue.num 2)] [] sampleServerError (fun _ => rfl) rfl

/-- C5: the HTTP request issued by `dispatchApi` carries `params` under the
`params` key of a configuration object when the method is `get`, and `params`
itself as the request body for every other method. -/
theorem dispatchApi_params_placement
    (env : Env) (rt : RequestType) (ep rq rs er : String)
    (params meta : JsObj)
    (h1 : env.dispatch (createApiRequestAction rq (.obj (params ++ meta))) = none) :
    Event.http rt.name ep (requestArg rt params) ∈
      (dispatchApi env rt ep (generateApiActionCreators rq rs er) params meta).1 ∧
    (rt = .get → requestArg rt params = .obj [("params", .obj params)]) ∧
    (rt ≠ .get → requestArg rt params = .obj params) := by
  refine ⟨?_, fun hg => by subst hg; rfl, fun hn => ?_⟩
  · rcases h : env.api rt ep (requestArg rt params) with e | r
    · simp only [dispatchApi, generateApiActionCreators, h1, h, handleCatch]
      rcases env.dispatch (createApiErrorAction er (.obj (params ++ meta))
          (extractError e)).2 with _ | t <;> simp
    · simp only [dispatchApi, generateApiActionCreators, h1, h]
      rcases env.dispatch (createApiResponseAction rs (.obj (params ++ meta)) r) with
        _ | t
      · simp
      · simp only [handleCatch]
        rcases env.dispatch (createApiErrorAction er (.obj (params ++ meta))
            (extractError t)).2 with _ | t2 <;> simp
  · cases rt with
    | get => exact absurd rfl hn
    | post => rfl
    | put => rfl
    | delete => rfl
    | patch => rfl

theorem dispatchApi_params_placement_witness :
    Event.http RequestType.get.name "/things"
        (requestArg .get [("page", JsValue.num 2)]) ∈
      (dispatchApi envOk .get "/things" (generateApiActionCreators "RQ" "RS" "ER")
        [("page", JsValue.num 2)] []).1 ∧
    (RequestType.get = .get →
      requestArg .get [("page", JsValue.num 2)] =
        .obj [("params", .obj [("page", JsValue.num 2)])]) ∧
    (RequestType.get ≠ .get →
      requestArg .get [("page", JsValue.num 2)] = .obj [("page", JsValue.num 2)]) :=
  dispatchApi_params_placement envOk .get "/things" "RQ" "RS" "ER"
    [("page", JsValue.num 2)] [] rfl

/-- C6: `createAction(type)` yields exactly `{type}` with no payload key, and
for every present (non-`undefined`) payload `p`, `createAction(type, p)`
yields exactly `{type, payload: p}`.  The function is pure by construction
and performs no validation. -/
theorem createAction_shape (type : String) (p : JsValue) (hp : p ≠ .undefined) :
    createActionNoPayload type = { type := type, payload := none, meta := none } ∧
    createAction type p = { type := type, payload := some p, meta := none } := by
  refine ⟨rfl, ?_⟩
  cases p with
  | undefined => exact absurd rfl hp
  | null => rfl
  | bool b => rfl
  | num n => rfl
  | str s => rfl
  | obj fields => rfl

theorem createAction_shape_witness :
    (JsValue.num 7 ≠ JsValue.undefined) ∧
    (createActionNoPayload "A" = { type := "A", payload := none, meta := none } ∧
     createAction "A" (JsValue.num 7) =
       { type := "A", payload := some (JsValue.num 7), meta := none }) :=
  ⟨fun h => JsValue.noConfusion h,
   createAction_shape "A" (JsValue.num 7) (fun h => JsValue.noConfusion h)⟩

/-- C7: `generateApiActionCreators(requestType, responseType, errorType)`
returns three creators with `request(meta) = {type: requestType, meta}`,
`response(payload, meta) = {type: responseType, meta, payload}` and
`error(error, meta) = {type: errorType, meta, payload: error}`, the last one
also logging the error as a side effect. -/
theorem generateApiActionCreators_triple (rq rs er : String) (m p e : JsValue) :
    (generateApiActionCreators rq rs er).request m =
      { type := rq, payload := none, meta := some m } ∧
    (generateApiActionCreators rq rs er).response p m =
      { type := rs, payload := some p, meta := some m } ∧
    (generateApiActionCreators rq rs er).error e m =
      ([Event.logged e], { type := er, payload := some e, meta := some m }) :=
  ⟨rfl, rfl, rfl⟩

/-- C8: every action dispatched by `dispatchApi` carries the merged meta
`{...params, ...meta}`, and on a key both objects share, the merged meta takes
the value from the caller-supplied `meta` (the later spread wins), falling back to
`params` only for keys absent from `meta`. -/
theorem dispatchApi_meta_overrides_params
    (env : Env) (rt : RequestType) (ep rq rs er : String)
    (params meta : JsObj) (k : String)
    (hd : ∀ a, env.dispatch a = none) :
    (∀ a ∈ dispatchedActions
        (dispatchApi env rt ep (generateApiActionCreators rq rs er) params meta).1,
      a.meta = some (JsValue.obj (params ++ meta))) ∧
    (hasKey meta k = true →
      JsValue.getField (.obj (params ++ meta)) k = JsValue.getField (.obj meta) k) ∧
    (hasKey meta k = false →
      JsValue.getField (.obj (params ++ meta)) k = JsValue.getField (.obj params) k) := by
  refine ⟨?_, fun h => by rw [getField_merge, if_pos h],
    fun h => by rw [getField_merge, if_neg (by simp [h])]⟩
  rcases hapi : env.api rt ep (requestArg rt params) with e | r <;>
    simp [dispatchApi, generateApiActionCreators, hd, hapi, handleCatch,
      dispatchedActions, createApiRequestAction, createApiResponseAction,
      createApiErrorAction]

theorem dispatchApi_meta_overrides_params_witness :
    (∀ a ∈ dispatchedActions
        (dispatchApi envOk .get "/things" (generateApiActionCreators "RQ" "RS" "ER")
          [("page", JsValue.num 2), ("k", JsValue.str "p")] [("k", JsValue.str "m")]).1,
      a.meta = some (JsValue.obj
        ([("page", JsValue.num 2), ("k", JsValue.str "p")] ++ [("k", JsValue.str "m")]))) ∧
    (hasKey [("k", JsValue.str "m")] "k" = true →
      JsValue.getField (.obj
          ([("page", JsValue.num 2), ("k", JsValue.str "p")] ++ [("k", JsValue.str "m")])) "k" =
        JsValue.getField (.obj [("k", JsValue.str "m")]) "k") ∧
    (hasKey [("k", JsValue.str "m")] "k" = false →
      JsValue.getField (.obj
          ([("page", JsValue.num 2), ("k", JsValue.str "p")] ++ [("k", JsValue.str "m")])) "k" =
        JsValue.getField (.obj [("page", JsValue.num 2), ("k", JsValue.str "p")]) "k") :=
  dispatchApi_meta_overrides_params envOk .get "/things" "RQ" "RS" "ER"
    [("page", JsValue.num 2), ("k", JsValue.str "p")] [("k", JsValue.str "m")] "k"
    (fun _ => rfl)

/-- C9: calling `createAction(type, undefined)` with an explicit `undefined`
payload is the same JavaScript call as omitting the argument, and both return
`{type}` with no payload key. -/
theorem createAction_explicit_undefined (type : String) :
    createAction type .undefined = createActionNoPayload type ∧
    (createAction type .undefined).payload = none :=
  ⟨rfl, rfl⟩

/-- C10: an exception thrown inside the `try` block by the dispatch of the
response action — after the HTTP call already succeeded — is caught by the
same `catch` clause: an error action whose payload derives from the thrown
value (via `extractError`) is dispatched, and the call resolves with
`undefined`.  The error branch is reachable even on a successful HTTP call. -/
theorem dispatchApi_response_dispatch_throw_caught
    (env : Env) (rt : RequestType) (ep rq rs er : String)
    (params meta : JsObj) (response thrown : JsValue)
    (h1 : env.dispatch (createApiRequestAction rq (.obj (params ++ meta))) = none)
    (h2 : env.api rt ep (requestArg rt params) = .ok response)
    (h3 : env.dispatch
      (createApiResponseAction rs (.obj (params ++ meta)) response) = some thrown)
    (h4 : env.dispatch
      (createApiErrorAction er (.obj (params ++ meta)) (extractError thrown)).2 = none) :
    dispatchedActions
        (dispatchApi env rt ep (generateApiActionCreators rq rs er) params meta).1 =
      [createApiRequestAction rq (.obj (params ++ meta)),
       (createApiErrorAction er (.obj (params ++ meta)) (extractError thrown)).2] ∧
    ((createApiErrorAction er (.obj (params ++ meta)) (extractError thrown)).2).payload =
      some (extractError thrown) ∧
    (dispatchApi env rt ep (generateApiActionCreators rq rs er) params meta).2 =
      .ok .undefined := by
  refine ⟨?_, rfl, ?_⟩ <;>
    simp [dispatchApi, generateApiActionCreators, h1, h2, h3, handleCatch, h4,
      createApiErrorAction, dispatchedActions] at h4 ⊢

theorem dispatchApi_response_dispatch_throw_caught_witness :
    dispatchedActions
        (dispatchApi envThrowOnResponse .get "/things"
          (generateApiActionCreators "RQ" "RS" "ER") [("page", JsValue.num 2)] []).1 =
      [createApiRequestAction "RQ" (.obj ([("page", JsValue.num 2)] ++ [])),
       (createApiErrorAction "ER" (.obj ([("page", JsValue.num 2)] ++ []))
         (extractError (.str "boom"))).2] ∧
    ((createApiErrorAction "ER" (.obj ([("page", JsValue.num 2)] ++ []))
        (extractError (.str "boom"))).2).payload = some (extractError (.str "boom")) ∧
    (dispatchApi envThrowOnResponse .get "/things"
        (generateApiActionCreators "RQ" "RS" "ER") [("page", JsValue.num 2)] []).2 =
      .ok .undefined :=
  dispatchApi_response_dispatch_throw_caught envThrowOnResponse .get "/things"
    "RQ" "RS" "ER" [("page", JsValue.num 2)] [] sampleResponse (.str "boom")
    rfl rfl rfl rfl

end ReduxActions
